import Mathlib

/-!
Verification of the rag_lite storage/auth/service layer.

Shallow embedding of the Python sources under `app/`:
* `app/services/storage/base.py`   — `BaseStorageProvider.generate_object_key`
* `app/services/storage/local_storage.py` — `LocalStorageProvider`
* `app/services/storage/minio_storage.py` — `MinIOStorageProvider`
* `app/routes/upload.py`           — `get_file` (path-traversal guard)
* `app/routes/document.py`         — `upload_document` (compensating rollback)
* `app/services/document_service.py` — `DocumentService.create/delete`
* `app/services/knowledgebase_service.py` — `KnowledgebaseService`
* `app/routes/knowledgebase.py`    — `create_knowledgebase` validation chain
* `app/util/jwt_utils.py`, `app/util/auth.py` — token verification / `login_required`

The filesystem (and the MinIO bucket) is modelled as its set of present
paths, a function `String → Bool`.  I/O faults that Python surfaces as
`OSError`/network exceptions are outside the model except where a claim is
about them, in which case the outcome is an explicit parameter.
-/

/-- A filesystem (or object-store bucket) as the set of paths present. -/
def FS : Type := String → Bool

/-- The empty filesystem. -/
def fsEmpty : FS := fun _ => false

/-- Creating a file at path `p` (models a completed `open(p,'wb')` write,
or a MinIO `put_object`). -/
def fsWrite (fs : FS) (p : String) : FS := fun x => if x = p then true else fs x

/-- Removing the file at path `p` from the path set. -/
def fsErase (fs : FS) (p : String) : FS := fun x => if x = p then false else fs x

/-- `os.path.exists` (the model stores regular files only, so this is also
`os.path.isfile`). -/
def osPathExists (fs : FS) (p : String) : Bool := fs p

/-- `os.remove`: succeeds exactly when the file exists; raises
(`.error`) `FileNotFoundError` otherwise. -/
def osRemove (fs : FS) (p : String) : Except String FS :=
  if fs p then .ok (fsErase fs p) else .error "FileNotFoundError"

/-- `os.path.join(a, b)` (posix): `b` wins when absolute, otherwise the
parts are joined with a single `/`. -/
def osPathJoin (a b : String) : String :=
  if b.startsWith "/" then b
  else if a = "" then b
  else if a.endsWith "/" then a ++ b
  else a ++ "/" ++ b

theorem fsErase_eq_of_absent (fs : FS) (p : String) (h : fs p = false) :
    fsErase fs p = fs := by
  funext x
  unfold fsErase
  split
  · rename_i hx
    rw [hx, h]
  · rfl

theorem append_ne_empty_right (a b : String) (hb : b ≠ "") : a ++ b ≠ "" := by
  obtain ⟨bl⟩ := b
  intro hc
  have hd : a.data ++ bl = [] := congrArg String.data hc
  have hbl : bl = [] := (List.append_eq_nil.mp hd).2
  exact hb (by rw [hbl])

/-- Python `str.lower` on one character (ASCII range, which is all the
storage/auth code feeds it). -/
def pyLowerChar (c : Char) : Char := c.toLower

/-- Python `str.lower`. -/
def pyLowerStr (s : String) : String := ⟨s.data.map pyLowerChar⟩

/-- `f"{n:02d}"` for a natural number: zero-padded to width two. -/
def pad2 (n : Nat) : String := if n < 10 then "0" ++ toString n else toString n

/-- Helper for `str.rfind`: scan left to right remembering the last index
at which `c` occurred (`acc` is the best index so far, `-1` initially). -/
def rfindAux (c : Char) : List Char → Nat → Int → Int
  | [], _, acc => acc
  | x :: xs, i, acc => rfindAux c xs (i + 1) (if x = c then (i : Int) else acc)

/-- Python `s.rfind(c)`: index of the last occurrence of `c`, `-1` if
absent. -/
def pyRFind (c : Char) (l : List Char) : Int := rfindAux c l 0 (-1)

/-- `os.path.splitext(p)[1]` (posix `genericpath._splitext` with
`sep='/'`, `extsep='.'`): the extension starts at the last dot after the
last slash, unless every character between them is a dot (dotfiles have
no extension). -/
def splitextExt (p : String) : String :=
  if pyRFind '/' p.data < pyRFind '.' p.data then
    if ((p.data.drop (pyRFind '/' p.data + 1).toNat).take
        ((pyRFind '.' p.data).toNat - (pyRFind '/' p.data + 1).toNat)).any
        (fun c => c ≠ '.') then
      ⟨p.data.drop (pyRFind '.' p.data).toNat⟩
    else ""
  else ""

/-- The `ext` computed by `generate_object_key`: the lowercased
`splitext` extension, defaulting to `.bin` when empty. -/
def objectExt (filename : String) : String :=
  if pyLowerStr (splitextExt filename) = "" then ".bin"
  else pyLowerStr (splitextExt filename)

/-- `BaseStorageProvider.generate_object_key` (`app/services/storage/base.py`).
`uniqueId` stands for `uuid.uuid4().hex[:16]` and `year`/`month` for
`datetime.now()`; both are environment inputs of the Python function. -/
def generate_object_key (filename biz_type : String) (uniqueId : String)
    (year month : Nat) : String :=
  biz_type ++ "/" ++ toString year ++ "/" ++ pad2 month ++ "/" ++ uniqueId ++
    objectExt filename

/-- `LocalStorageProvider._get_full_path`. -/
def LocalStorageProvider.get_full_path (upload_dir object_key : String) : String :=
  osPathJoin upload_dir object_key

/-- `LocalStorageProvider.upload`: generates the object key, writes the
stream at the joined path, returns `(object_key, None)`.  Disk-write
`IOError`s are outside the model. -/
def LocalStorageProvider.upload (upload_dir : String) (fs : FS)
    (filename biz_type uniqueId : String) (year month : Nat) :
    FS × Option String × Option String :=
  (fsWrite fs (LocalStorageProvider.get_full_path upload_dir
      (generate_object_key filename biz_type uniqueId year month)),
    some (generate_object_key filename biz_type uniqueId year month), none)

/-- `LocalStorageProvider.delete`: empty keys succeed untouched; an
existing file is removed with `os.remove`; a missing file is skipped with
success.  (`_cleanup_empty_dirs` only prunes empty directories and does
not change the file set.) -/
def LocalStorageProvider.delete (upload_dir : String) (fs : FS)
    (object_key : String) : FS × Bool × Option String :=
  if object_key = "" then (fs, true, none)
  else if osPathExists fs (LocalStorageProvider.get_full_path upload_dir object_key) then
    match osRemove fs (LocalStorageProvider.get_full_path upload_dir object_key) with
    | .ok fs1 => (fs1, true, none)
    | .error e => (fs, false, some ("文件删除失败: " ++ e))
  else (fs, true, none)

/-- `LocalStorageProvider.exists`: false for the empty key, otherwise a
stat of the joined path. -/
def LocalStorageProvider.existsFile (upload_dir : String) (fs : FS)
    (object_key : String) : Bool :=
  if object_key = "" then false
  else osPathExists fs (LocalStorageProvider.get_full_path upload_dir object_key)

/-- `LocalStorageProvider.get_url`: `None` for the empty key or a missing
file, otherwise `{base_url}/api/upload/files/{object_key}`. -/
def LocalStorageProvider.get_url (upload_dir base_url : String) (fs : FS)
    (object_key : String) : Option String :=
  if object_key = "" then none
  else if ¬ LocalStorageProvider.existsFile upload_dir fs object_key then none
  else some (base_url ++ "/api/upload/files/" ++ object_key)

/-- `LocalStorageProvider.get_file_path`: the joined path when the file
exists, `None` otherwise. -/
def LocalStorageProvider.get_file_path (upload_dir : String) (fs : FS)
    (object_key : String) : Option String :=
  if object_key = "" then none
  else if osPathExists fs (LocalStorageProvider.get_full_path upload_dir object_key) then
    some (LocalStorageProvider.get_full_path upload_dir object_key)
  else none

/-- MinIO `client.remove_object`: removing an absent object is not an
error (S3 delete semantics, as the source comment notes). -/
def MinIOStorageProvider.remove_object (bucket : FS) (object_key : String) : FS :=
  fsErase bucket object_key

/-- `MinIOStorageProvider.delete`: empty keys succeed untouched,
otherwise `remove_object` and success.  Network faults are outside the
model. -/
def MinIOStorageProvider.delete (bucket : FS) (object_key : String) :
    FS × Bool × Option String :=
  if object_key = "" then (bucket, true, none)
  else (MinIOStorageProvider.remove_object bucket object_key, true, none)

/-- `MinIOStorageProvider.exists`: `stat_object` succeeds exactly when
the object is present; empty keys are false. -/
def MinIOStorageProvider.existsFile (bucket : FS) (object_key : String) : Bool :=
  if object_key = "" then false else bucket object_key

/-- `MinIOStorageProvider.get_url`: `None` for the empty key, otherwise
the SDK's presigned URL (the SDK is abstracted as `presign`). -/
def MinIOStorageProvider.get_url (presign : String → String) (_bucket : FS)
    (object_key : String) : Option String :=
  if object_key = "" then none else some (presign object_key)

theorem local_delete_snd (upload_dir : String) (fs : FS) (k : String) :
    (LocalStorageProvider.delete upload_dir fs k).2 = (true, none) := by
  unfold LocalStorageProvider.delete
  by_cases hk : k = ""
  · simp [hk]
  · by_cases hp : fs (LocalStorageProvider.get_full_path upload_dir k) = true
    · simp [hk, osPathExists, hp, osRemove]
    · simp [hk, osPathExists, hp]

theorem local_delete_absent (upload_dir : String) (fs : FS) (k : String)
    (h : fs (LocalStorageProvider.get_full_path upload_dir k) = false) :
    LocalStorageProvider.delete upload_dir fs k = (fs, true, none) := by
  unfold LocalStorageProvider.delete
  by_cases hk : k = ""
  · simp [hk]
  · simp [hk, osPathExists, h]

theorem minio_delete_snd (bucket : FS) (k : String) :
    (MinIOStorageProvider.delete bucket k).2 = (true, none) := by
  unfold MinIOStorageProvider.delete
  split <;> rfl

/-- Claim C6: for every object key and both storage providers, delete
twice in succession succeeds both times with no error on the second
call, and deleting an already-absent key returns `(True, None)`, not an
error. -/
theorem storage_delete_idempotent (upload_dir : String) (fs bucket : FS)
    (object_key : String) :
    (LocalStorageProvider.delete upload_dir fs object_key).2 = (true, none) ∧
    (LocalStorageProvider.delete upload_dir
      (LocalStorageProvider.delete upload_dir fs object_key).1 object_key).2 =
      (true, none) ∧
    (MinIOStorageProvider.delete bucket object_key).2 = (true, none) ∧
    (MinIOStorageProvider.delete
      (MinIOStorageProvider.delete bucket object_key).1 object_key).2 =
      (true, none) ∧
    (osPathExists fs (LocalStorageProvider.get_full_path upload_dir object_key)
        = false →
      LocalStorageProvider.delete upload_dir fs object_key = (fs, true, none)) ∧
    (bucket object_key = false →
      MinIOStorageProvider.delete bucket object_key = (bucket, true, none)) := by
  refine ⟨local_delete_snd _ _ _, local_delete_snd _ _ _, minio_delete_snd _ _,
    minio_delete_snd _ _, fun h => local_delete_absent _ _ _ h, fun h => ?_⟩
  unfold MinIOStorageProvider.delete MinIOStorageProvider.remove_object
  by_cases hk : object_key = ""
  · simp [hk]
  · simp [hk, fsErase_eq_of_absent bucket object_key h]

/-- Claim C6 witness: both deletes succeed on a concrete key over the
empty filesystem, and deleting the absent key is `(fs, True, None)`. -/
theorem storage_delete_idempotent_witness :
    (LocalStorageProvider.delete "uploads" fsEmpty "documents/a.bin").2
        = (true, none) ∧
    (LocalStorageProvider.delete "uploads"
      (LocalStorageProvider.delete "uploads" fsEmpty "documents/a.bin").1
      "documents/a.bin").2 = (true, none) ∧
    LocalStorageProvider.delete "uploads" fsEmpty "documents/a.bin"
        = (fsEmpty, true, none) ∧
    MinIOStorageProvider.delete fsEmpty "documents/a.bin"
        = (fsEmpty, true, none) := by
  have h := storage_delete_idempotent "uploads" fsEmpty fsEmpty "documents/a.bin"
  exact ⟨h.1, h.2.1, h.2.2.2.2.1 rfl, h.2.2.2.2.2 rfl⟩

/-- Claim C10: at the provider interface an empty object key is never an
error: `delete` returns `(True, None)` without touching storage,
`exists` returns false, and `get_url` returns `None`, on both providers. -/
theorem storage_empty_key_behavior (upload_dir base_url : String)
    (presign : String → String) (fs bucket : FS) :
    LocalStorageProvider.delete upload_dir fs "" = (fs, true, none) ∧
    LocalStorageProvider.existsFile upload_dir fs "" = false ∧
    LocalStorageProvider.get_url upload_dir base_url fs "" = none ∧
    MinIOStorageProvider.delete bucket "" = (bucket, true, none) ∧
    MinIOStorageProvider.existsFile bucket "" = false ∧
    MinIOStorageProvider.get_url presign bucket "" = none := by
  refine ⟨rfl, rfl, rfl, rfl, rfl, rfl⟩

theorem objectExt_ne_empty (filename : String) : objectExt filename ≠ "" := by
  unfold objectExt
  split
  · decide
  · assumption

theorem generate_object_key_ne_empty (filename biz_type uniqueId : String)
    (year month : Nat) :
    generate_object_key filename biz_type uniqueId year month ≠ "" := by
  unfold generate_object_key
  exact append_ne_empty_right _ _ (objectExt_ne_empty filename)

/-- Claim C7: a key produced by a successful local upload immediately
satisfies `exists`, its `get_url` is a non-empty string, and after a
successful `delete` of that key `exists` is false. -/
theorem storage_upload_roundtrip (upload_dir base_url : String) (fs : FS)
    (filename biz_type uniqueId : String) (year month : Nat) :
    ∀ k, (LocalStorageProvider.upload upload_dir fs filename biz_type
        uniqueId year month).2.1 = some k →
      LocalStorageProvider.existsFile upload_dir
        (LocalStorageProvider.upload upload_dir fs filename biz_type
          uniqueId year month).1 k = true ∧
      (∃ u, LocalStorageProvider.get_url upload_dir base_url
        (LocalStorageProvider.upload upload_dir fs filename biz_type
          uniqueId year month).1 k = some u ∧ u ≠ "") ∧
      LocalStorageProvider.existsFile upload_dir
        (LocalStorageProvider.delete upload_dir
          (LocalStorageProvider.upload upload_dir fs filename biz_type
            uniqueId year month).1 k).1 k = false := by
  intro k hk
  have hkey : k = generate_object_key filename biz_type uniqueId year month := by
    simpa [LocalStorageProvider.upload] using hk.symm
  have hne : k ≠ "" := by
    rw [hkey]; exact generate_object_key_ne_empty _ _ _ _ _
  have hmem : (LocalStorageProvider.upload upload_dir fs filename biz_type
      uniqueId year month).1 (LocalStorageProvider.get_full_path upload_dir k)
      = true := by
    rw [hkey]
    simp [LocalStorageProvider.upload, fsWrite]
  have hex : LocalStorageProvider.existsFile upload_dir
      (LocalStorageProvider.upload upload_dir fs filename biz_type
        uniqueId year month).1 k = true := by
    simp [LocalStorageProvider.existsFile, hne, osPathExists, hmem]
  refine ⟨hex, ⟨base_url ++ "/api/upload/files/" ++ k, ?_, ?_⟩, ?_⟩
  · simp [LocalStorageProvider.get_url, hne, hex]
  · exact append_ne_empty_right _ _ hne
  · simp [LocalStorageProvider.delete, hne, osPathExists, hmem, osRemove,
      LocalStorageProvider.existsFile, fsErase]

/-- Claim C7 witness: concrete upload of `photo.PNG` into `documents`
round-trips: the key exists, has a URL, and is gone after delete. -/
theorem storage_upload_roundtrip_witness :
    (LocalStorageProvider.upload "uploads" fsEmpty "photo.PNG" "documents"
        "0123456789abcdef" 2026 3).2.1 =
      some "documents/2026/03/0123456789abcdef.png" ∧
    LocalStorageProvider.existsFile "uploads"
      (LocalStorageProvider.upload "uploads" fsEmpty "photo.PNG" "documents"
        "0123456789abcdef" 2026 3).1 "documents/2026/03/0123456789abcdef.png"
      = true ∧
    (∃ u, LocalStorageProvider.get_url "uploads" "http://127.0.0.1:5000"
      (LocalStorageProvider.upload "uploads" fsEmpty "photo.PNG" "documents"
        "0123456789abcdef" 2026 3).1 "documents/2026/03/0123456789abcdef.png"
      = some u ∧ u ≠ "") ∧
    LocalStorageProvider.existsFile "uploads"
      (LocalStorageProvider.delete "uploads"
        (LocalStorageProvider.upload "uploads" fsEmpty "photo.PNG" "documents"
          "0123456789abcdef" 2026 3).1
        "documents/2026/03/0123456789abcdef.png").1
      "documents/2026/03/0123456789abcdef.png" = false := by
  have hkey : (LocalStorageProvider.upload "uploads" fsEmpty "photo.PNG"
      "documents" "0123456789abcdef" 2026 3).2.1 =
      some "documents/2026/03/0123456789abcdef.png" := by decide
  have h := storage_upload_roundtrip "uploads" "http://127.0.0.1:5000" fsEmpty
    "photo.PNG" "documents" "0123456789abcdef" 2026 3
    "documents/2026/03/0123456789abcdef.png" hkey
  exact ⟨hkey, h.1, h.2.1, h.2.2⟩

/-- Lowercase hexadecimal digit, the alphabet of `uuid.uuid4().hex`. -/
def isHexDigitLower (c : Char) : Bool := c.isDigit || ('a' ≤ c && c ≤ 'f')

theorem rfindAux_out (c : Char) : ∀ (l : List Char) (i : Nat) (acc : Int),
    rfindAux c l i acc = acc ∨
      ∃ k : Nat, rfindAux c l i acc = (k : Int) ∧ i ≤ k ∧
        l.get? (k - i) = some c := by
  intro l
  induction l with
  | nil => intro i acc; exact Or.inl rfl
  | cons x xs ih =>
    intro i acc
    rcases ih (i + 1) (if x = c then (i : Int) else acc) with h | ⟨k, hk, hik, hget⟩
    · by_cases hx : x = c
      · right
        refine ⟨i, ?_, le_refl i, ?_⟩
        · rw [rfindAux, h, if_pos hx]
        · simp [hx]
      · left
        rw [rfindAux, h, if_neg hx]
    · right
      refine ⟨k, ?_, Nat.le_of_succ_le hik, ?_⟩
      · rw [rfindAux, hk]
      · have hki : k - i = (k - (i + 1)) + 1 := by omega
        rw [hki]
        simpa using hget

theorem pyRFind_out (c : Char) (l : List Char) :
    pyRFind c l = -1 ∨
      ∃ k : Nat, pyRFind c l = (k : Int) ∧ l.get? k = some c := by
  rcases rfindAux_out c l 0 (-1) with h | ⟨k, hk, _, hget⟩
  · exact Or.inl h
  · exact Or.inr ⟨k, hk, by simpa using hget⟩

theorem pyRFind_ge (c : Char) (l : List Char) : -1 ≤ pyRFind c l := by
  rcases pyRFind_out c l with h | ⟨k, hk, _⟩
  · rw [h]
  · rw [hk]; omega

theorem splitextExt_head (p : String) :
    splitextExt p = "" ∨ (splitextExt p).data.head? = some '.' := by
  unfold splitextExt
  split
  · rename_i hlt
    split
    · right
      rcases pyRFind_out '.' p.data with h | ⟨k, hk, hget⟩
      · exfalso
        have := pyRFind_ge '/' p.data
        omega
      · rw [hk]
        simp only [Int.toNat_ofNat]
        rw [List.head?_drop]
        simpa [List.getElem?_eq_some_iff, List.get?_eq_getElem?] using hget
    · exact Or.inl rfl
  · exact Or.inl rfl

theorem pyLowerStr_empty_iff (s : String) : pyLowerStr s = "" ↔ s = "" := by
  obtain ⟨l⟩ := s
  constructor
  · intro h
    have hd : l.map pyLowerChar = [] := congrArg String.data h
    have : l = [] := List.map_eq_nil_iff.mp hd
    rw [this]
  · intro h
    rw [h]; rfl

/-- Claim C5: every generated object key has the shape
`{category}/{year}/{two-digit month}/{16 hex chars}{ext}`, with `ext`
the lowercased original extension (leading dot included) or `.bin` when
the filename has none. -/
theorem generate_object_key_format (filename biz_type uniqueId : String)
    (year month : Nat) (h1 : 1 ≤ month) (h2 : month ≤ 12)
    (h3 : uniqueId.length = 16)
    (h4 : uniqueId.data.all isHexDigitLower = true) :
    ∃ ext : String,
      generate_object_key filename biz_type uniqueId year month =
        biz_type ++ "/" ++ toString year ++ "/" ++ pad2 month ++ "/" ++
          uniqueId ++ ext ∧
      (pad2 month).length = 2 ∧
      (pad2 month).data.all Char.isDigit = true ∧
      uniqueId.length = 16 ∧
      uniqueId.data.all isHexDigitLower = true ∧
      ((splitextExt filename = "" ∧ ext = ".bin") ∨
        (ext = pyLowerStr (splitextExt filename) ∧
          ext.data.head? = some '.')) := by
  refine ⟨objectExt filename, rfl, ?_, ?_, h3, h4, ?_⟩
  · interval_cases month <;> decide
  · interval_cases month <;> decide
  · by_cases he : pyLowerStr (splitextExt filename) = ""
    · left
      exact ⟨(pyLowerStr_empty_iff _).mp he, by rw [objectExt, if_pos he]⟩
    · right
      refine ⟨by rw [objectExt, if_neg he], ?_⟩
      rcases splitextExt_head filename with h0 | h0
      · exact absurd ((pyLowerStr_empty_iff _).mpr ((pyLowerStr_empty_iff _).mp
          (by rw [h0]; rfl))) he
      · rw [objectExt, if_neg he]
        show ((splitextExt filename).data.map pyLowerChar).head? = some '.'
        rw [List.head?_map, h0]
        rfl

/-- Claim C5 witness: `Report.PDF` in category `documents`, March 2026,
with a concrete 16-hex uuid fragment. -/
theorem generate_object_key_format_witness :
    (1 ≤ 3 ∧ 3 ≤ 12 ∧ ("0123456789abcdef" : String).length = 16 ∧
      ("0123456789abcdef" : String).data.all isHexDigitLower = true) ∧
    (∃ ext : String,
      generate_object_key "Report.PDF" "documents" "0123456789abcdef" 2026 3 =
        "documents" ++ "/" ++ toString 2026 ++ "/" ++ pad2 3 ++ "/" ++
          "0123456789abcdef" ++ ext ∧
      (pad2 3).length = 2 ∧
      (pad2 3).data.all Char.isDigit = true ∧
      ("0123456789abcdef" : String).length = 16 ∧
      ("0123456789abcdef" : String).data.all isHexDigitLower = true ∧
      ((splitextExt "Report.PDF" = "" ∧ ext = ".bin") ∨
        (ext = pyLowerStr (splitextExt "Report.PDF") ∧
          ext.data.head? = some '.'))) :=
  ⟨⟨by decide, by decide, by decide, by decide⟩,
    generate_object_key_format "Report.PDF" "documents" "0123456789abcdef"
      2026 3 (by decide) (by decide) (by decide) (by decide)⟩

/-- Value of an ASCII hex digit, as accepted by `urllib.parse.unquote`
escape sequences. -/
def hexVal (c : Char) : Option Nat :=
  if '0' ≤ c ∧ c ≤ '9' then some (c.toNat - '0'.toNat)
  else if 'a' ≤ c ∧ c ≤ 'f' then some (c.toNat - 'a'.toNat + 10)
  else if 'A' ≤ c ∧ c ≤ 'F' then some (c.toNat - 'A'.toNat + 10)
  else none

/-- `urllib.parse.unquote` restricted to single-byte (ASCII-range) escape
sequences: each valid `%XX` becomes the byte `XX`; invalid `%` sequences
pass through unchanged, as in Python. -/
def unquoteChars : List Char → List Char
  | [] => []
  | '%' :: a :: b :: rest =>
    match hexVal a, hexVal b with
    | some x, some y => Char.ofNat (16 * x + y) :: unquoteChars rest
    | _, _ => '%' :: unquoteChars (a :: b :: rest)
  | c :: rest => c :: unquoteChars rest

/-- `urllib.parse.unquote` (ASCII-range escapes). -/
def pyUnquote (s : String) : String := ⟨unquoteChars s.data⟩

/-- `xs.isPrefixOf ys` over characters (Boolean, executable). -/
def listStartsWith : List Char → List Char → Bool
  | [], _ => true
  | _ :: _, [] => false
  | a :: as, b :: bs => a = b && listStartsWith as bs

/-- Substring test over characters: Python's `needle in haystack`. -/
def listContains (needle : List Char) : List Char → Bool
  | [] => listStartsWith needle []
  | h :: t => listStartsWith needle (h :: t) || listContains needle t

/-- Python `needle in haystack` on strings. -/
def strIn (needle hay : String) : Bool := listContains needle.data hay.data

/-- The dangerous-pattern test of `get_file` (`app/routes/upload.py`):
leading `/` or `\`, a `:` as second character (Windows drive), or a
`..` / `\` / NUL byte anywhere, all on the percent-decoded key. -/
def isDangerousKey (decoded_key : String) : Bool :=
  listStartsWith "/".data decoded_key.data ||
  listStartsWith "\\".data decoded_key.data ||
  (decide (2 ≤ decoded_key.data.length) && decoded_key.data.get? 1 = some ':') ||
  strIn ".." decoded_key ||
  strIn "\\" decoded_key ||
  strIn "\x00" decoded_key

/-- Responses of the file-serving endpoint. -/
inductive FileResp where
  | not_found (msg : String)
  | file (path : String)
deriving DecidableEq

/-- `get_file` (`app/routes/upload.py`): non-local storage is refused;
the percent-decoded key is screened by `isDangerousKey` before any
filesystem join; then `get_file_path` resolves the (raw) key.
`storage_is_local` models both the `Config.STORAGE_TYPE` check and the
`isinstance(storage, LocalStorageProvider)` re-check. -/
def get_file (storage_is_local : Bool) (upload_dir : String) (fs : FS)
    (object_key : String) : FileResp :=
  if ¬ storage_is_local then .not_found "此接口仅支持本地存储模式"
  else if isDangerousKey (pyUnquote object_key) then .not_found "文件不存在"
  else if ¬ storage_is_local then .not_found "此接口仅支持本地存储模式"
  else match LocalStorageProvider.get_file_path upload_dir fs object_key with
    | none => .not_found "文件不存在"
    | some p => .file p

/-- Claim C2: any caller-supplied key whose percent-decoded form contains
`..`, a backslash or a NUL byte, or starts with `/` or `\`, or has `:`
as its second character, is answered "not found" before any filesystem
join; in particular `../../etc/passwd`, `/etc/passwd`, `C:\Windows` and
`%2e%2e%2fsecret` all resolve to not-found, never to file content. -/
theorem get_file_rejects_path_traversal :
    (∀ (fs : FS) (upload_dir object_key : String),
      isDangerousKey (pyUnquote object_key) = true →
        get_file true upload_dir fs object_key = .not_found "文件不存在") ∧
    (∀ (fs : FS) (upload_dir : String),
      get_file true upload_dir fs "../../etc/passwd" = .not_found "文件不存在" ∧
      get_file true upload_dir fs "/etc/passwd" = .not_found "文件不存在" ∧
      get_file true upload_dir fs "C:\\Windows" = .not_found "文件不存在" ∧
      get_file true upload_dir fs "%2e%2e%2fsecret" = .not_found "文件不存在") := by
  constructor
  · intro fs upload_dir object_key h
    unfold get_file
    simp [h]
  · intro fs upload_dir
    have h1 : isDangerousKey (pyUnquote "../../etc/passwd") = true := by decide
    have h2 : isDangerousKey (pyUnquote "/etc/passwd") = true := by decide
    have h3 : isDangerousKey (pyUnquote "C:\\Windows") = true := by decide
    have h4 : isDangerousKey (pyUnquote "%2e%2e%2fsecret") = true := by decide
    refine ⟨?_, ?_, ?_, ?_⟩ <;> unfold get_file
    · simp [h1]
    · simp [h2]
    · simp [h3]
    · simp [h4]

/-- Claim C2 witness: the dangerous-pattern test fires on a concrete
percent-encoded traversal and `get_file` answers not-found over a
filesystem that does contain `/etc/passwd`. -/
theorem get_file_rejects_path_traversal_witness :
    isDangerousKey (pyUnquote "%2e%2e/%2e%2e/etc/passwd") = true ∧
    get_file true "uploads" (fsWrite fsEmpty "/etc/passwd")
      "%2e%2e/%2e%2e/etc/passwd" = .not_found "文件不存在" := by
  constructor
  · decide
  · exact get_file_rejects_path_traversal.1 (fsWrite fsEmpty "/etc/passwd")
      "uploads" "%2e%2e/%2e%2e/etc/passwd" (by decide)

/-- Python `s.split(" ")`: split on every single space, keeping empty
parts (list-of-chars worker). -/
def pySplitSpaceChars : List Char → List (List Char)
  | [] => [[]]
  | c :: rest =>
    match pySplitSpaceChars rest with
    | [] => [[c]]
    | h :: t => if c = ' ' then [] :: h :: t else (c :: h) :: t

/-- Python `s.split(" ")`. -/
def pySplitSpace (s : String) : List String :=
  (pySplitSpaceChars s.data).map (fun l => (⟨l⟩ : String))

/-- `get_token_from_header` (`app/util/jwt_utils.py`): parse
`Authorization: Bearer <token>`; a missing or malformed header is "no
token", not an error. -/
def get_token_from_header (auth_header : Option String) : Option String :=
  match auth_header with
  | none => none
  | some h =>
    match pySplitSpace h with
    | [p0, p1] => if pyLowerStr p0 = "bearer" then some p1 else none
    | _ => none

/-- The decoded claims of a verified token. -/
structure Payload where
  user_id : String
  username : String
deriving DecidableEq, Repr

/-- Outcome of `jwt.decode` on a given token under the current secret:
success, `ExpiredSignatureError`, or `InvalidTokenError` (which covers a
bad signature). -/
inductive JwtOutcome where
  | ok (user_id username : String)
  | expired
  | invalid (reason : String)
deriving DecidableEq

/-- `verify_token` (`app/util/jwt_utils.py`): returns the payload on
success and `None` on any failure; the expired/invalid distinction is
recorded only in the log message (second component). -/
def verify_token (outcome : JwtOutcome) : Option Payload × Option String :=
  match outcome with
  | .ok uid uname => (some ⟨uid, uname⟩, none)
  | .expired => (none, some "Token 已过期")
  | .invalid reason => (none, some ("Token 无效: " ++ reason))

/-- Result of the `login_required` decorator (`app/util/auth.py`). -/
inductive LRResult where
  | denied (code : Nat) (message : String)
  | allowed (payload : Payload)
deriving DecidableEq

/-- `login_required` (`app/util/auth.py`): `if not token:` — a missing
token, and equally the falsy empty token that a header like `Bearer `
yields — ⇒ 401 with the missing-credentials message; failed
verification ⇒ 401 with the session-expired message; otherwise the
request proceeds.  `decode` is the `jwt.decode` oracle for this
request's secret. -/
def login_required (auth_header : Option String)
    (decode : String → JwtOutcome) : LRResult :=
  match get_token_from_header auth_header with
  | none => .denied 401 "缺少认证信息，请先登录"
  | some tok =>
    if tok = "" then .denied 401 "缺少认证信息，请先登录"
    else
      match (verify_token (decode tok)).1 with
      | none => .denied 401 "登录已过期，请重新登录"
      | some payload => .allowed payload

/-- Claim C4 counterexample: a request with no token and a request with
an expired token do NOT receive the same message — the code answers
"缺少认证信息，请先登录" versus "登录已过期，请重新登录", refuting the
claim that missing/bad-signature/expired all yield one identical
message. -/
theorem auth_missing_vs_expired_message_differs :
    login_required none (fun _ => JwtOutcome.expired) ≠
      login_required (some "Bearer sometoken")
        (fun _ => JwtOutcome.expired) := by
  decide

/-- Claim C4 (amended): an absent token — including the falsy empty
token extracted from a header like `Bearer ` — is answered with the
fixed generic message `缺少认证信息，请先登录`; a present non-empty
token whose verification fails — whether its signature is bad or it is
expired — is answered with the single identical generic message
`登录已过期，请重新登录`; the expired/invalid distinction is observable
only in the log message of `verify_token`, never in the response. -/
theorem auth_failure_message_uniformity :
    (∀ (auth_header : Option String) (t reason : String),
      get_token_from_header auth_header = some t → t ≠ "" →
        login_required auth_header (fun _ => JwtOutcome.expired) =
          .denied 401 "登录已过期，请重新登录" ∧
        login_required auth_header (fun _ => JwtOutcome.invalid reason) =
          .denied 401 "登录已过期，请重新登录") ∧
    (∀ (auth_header : Option String) (decode : String → JwtOutcome),
      (get_token_from_header auth_header = none ∨
        get_token_from_header auth_header = some "") →
        login_required auth_header decode =
          .denied 401 "缺少认证信息，请先登录") ∧
    (∀ reason : String,
      (verify_token JwtOutcome.expired).1 = none ∧
      (verify_token (JwtOutcome.invalid reason)).1 = none ∧
      (verify_token JwtOutcome.expired).2 ≠
        (verify_token (JwtOutcome.invalid reason)).2) := by
  refine ⟨?_, ?_, ?_⟩
  · intro auth_header t reason hget ht
    refine ⟨?_, ?_⟩ <;> simp [login_required, hget, ht, verify_token]
  · intro auth_header decode h
    rcases h with h | h <;> simp [login_required, h]
  · intro reason
    refine ⟨rfl, rfl, ?_⟩
    intro hcontra
    have heq : ("Token 已过期" : String) = "Token 无效: " ++ reason :=
      Option.some.inj (by simpa [verify_token] using hcontra)
    have hlen := congrArg String.length heq
    rw [String.length_append] at hlen
    have h1 : ("Token 已过期" : String).length = 9 := by decide
    have h2 : ("Token 无效: " : String).length = 10 := by decide
    omega

/-- Claim C4 amended witness: concrete header `Bearer abc` under an
expired and an invalid decode outcome, a concrete absent header, and
the header `Bearer ` whose extracted token is the falsy empty string. -/
theorem auth_failure_message_uniformity_witness :
    (get_token_from_header (some "Bearer abc") = some "abc" ∧
      login_required (some "Bearer abc") (fun _ => JwtOutcome.expired) =
        .denied 401 "登录已过期，请重新登录" ∧
      login_required (some "Bearer abc")
          (fun _ => JwtOutcome.invalid "Signature verification failed") =
        .denied 401 "登录已过期，请重新登录") ∧
    (get_token_from_header none = none ∧
      login_required none (fun _ => JwtOutcome.expired) =
        .denied 401 "缺少认证信息，请先登录") ∧
    (get_token_from_header (some "Bearer ") = some "" ∧
      login_required (some "Bearer ") (fun _ => JwtOutcome.expired) =
        .denied 401 "缺少认证信息，请先登录") ∧
    (verify_token JwtOutcome.expired).2 ≠
      (verify_token (JwtOutcome.invalid "Signature verification failed")).2 := by
  have he : get_token_from_header (some "Bearer abc") = some "abc" := by decide
  have hemp : get_token_from_header (some "Bearer ") = some "" := by decide
  have h := auth_failure_message_uniformity
  exact ⟨⟨he, (h.1 (some "Bearer abc") "abc" "Signature verification failed"
        he (by decide)).1,
      (h.1 (some "Bearer abc") "abc" "Signature verification failed"
        he (by decide)).2⟩,
    ⟨rfl, h.2.1 none (fun _ => JwtOutcome.expired) (Or.inl rfl)⟩,
    ⟨hemp, h.2.1 (some "Bearer ") (fun _ => JwtOutcome.expired) (Or.inr hemp)⟩,
    (h.2.2 "Signature verification failed").2.2⟩

/-- Python `str.strip()` over characters. -/
def pyStripChars (l : List Char) : List Char :=
  ((l.dropWhile (fun c => c.isWhitespace)).reverse.dropWhile
    (fun c => c.isWhitespace)).reverse

/-- Python `str.strip()`. -/
def pyStrip (s : String) : String := ⟨pyStripChars s.data⟩

/-- A `knowledgebase` row (`app/models/knowledgebase.py`); `created_at`
drives the list ordering. -/
structure KBRec where
  id : String
  user_id : String
  name : String
  description : Option String
  cover_image : Option String
  chunk_size : Int
  chunk_overlap : Int
  created_at : Nat
deriving DecidableEq, Repr

/-- A `document` row (`app/models/document.py`). -/
structure DocRec where
  id : String
  kb_id : String
  name : String
  file_path : String
  file_type : String
  file_size : Int
  status : String
deriving DecidableEq, Repr

/-- The relational store visible to the document service. -/
structure DB where
  kbs : List KBRec
  docs : List DocRec
deriving DecidableEq

/-- `DocumentStatus` constants (`app/models/document.py`). -/
def DocumentStatus.PENDING : String := "pending"

def DocumentStatus.PROCESSING : String := "processing"

def DocumentStatus.COMPLETED : String := "completed"

def DocumentStatus.FAILED : String := "failed"

/-- `DocumentService.create` (`app/services/document_service.py`): the
knowledgebase must exist and belong to the user; then the document row
is inserted with status `pending`.  `insert_fault` models the
`except Exception` path (a database failure at flush), which the source
converts into the error string `服务器内部错误`.  The `(value, error)`
pair of the source is encoded as `Except`. -/
def DocumentService.create (db : DB) (kb_id user_id name file_path
    file_type : String) (file_size : Int) (new_doc_id : String)
    (insert_fault : Bool) : Except String DocRec × DB :=
  match db.kbs.find? (fun kb => kb.id == kb_id && kb.user_id == user_id) with
  | none => (.error "知识库不存在或无权访问", db)
  | some _ =>
    if insert_fault then (.error "服务器内部错误", db)
    else
      (.ok { id := new_doc_id, kb_id := kb_id, name := name,
             file_path := file_path, file_type := file_type,
             file_size := file_size, status := DocumentStatus.PENDING },
        { db with docs := db.docs ++
          [{ id := new_doc_id, kb_id := kb_id, name := name,
             file_path := file_path, file_type := file_type,
             file_size := file_size, status := DocumentStatus.PENDING }] })

/-- `DocumentService.delete` (`app/services/document_service.py`):
ownership check, document lookup, the `processing` guard, then row
delete followed by best-effort blob delete. -/
def DocumentService.delete (db : DB) (fs : FS)
    (upload_dir kb_id doc_id user_id : String) :
    (Bool × Option String) × DB × FS :=
  match db.kbs.find? (fun kb => kb.id == kb_id && kb.user_id == user_id) with
  | none => ((false, some "知识库不存在或无权访问"), db, fs)
  | some _ =>
    match db.docs.find? (fun d => d.id == doc_id && d.kb_id == kb_id) with
    | none => ((false, some "文档不存在"), db, fs)
    | some doc =>
      if doc.status == DocumentStatus.PROCESSING then
        ((false, some "文档正在处理中，无法删除"), db, fs)
      else
        ((true, none),
          { db with docs := db.docs.filter (fun d => !(d.id == doc.id)) },
          if doc.file_path ≠ "" then
            (LocalStorageProvider.delete upload_dir fs doc.file_path).1
          else fs)

/-- Responses of the document-upload route. -/
inductive DocResp where
  | ok (doc : DocRec)
  | bad_request (msg : String)
  | server_error (msg : String)
deriving DecidableEq

/-- Outcome of the rollback `storage.delete(object_key)` call in
`upload_document`: the real local delete, a `(False, msg)` return, or a
raised exception (caught by the route's `try/except`). -/
inductive DeleteBehavior where
  | real
  | fails (msg : String)
  | raises (msg : String)
deriving DecidableEq

/-- Effect of the rollback delete on the filesystem for each behavior. -/
def rollback_delete (b : DeleteBehavior) (upload_dir : String) (fs : FS)
    (object_key : String) : FS :=
  match b with
  | .real => (LocalStorageProvider.delete upload_dir fs object_key).1
  | .fails _ => fs
  | .raises _ => fs

/-- `upload_document` (`app/routes/document.py`), from the point where
the storage upload is attempted (request validation has passed).
`object_key` is the key the provider generates, `upload_error` the
upload outcome, `insert_fault` the database-failure injection for
`DocumentService.create`, and `delB` the outcome of the rollback delete.
On create failure the route deletes the uploaded blob inside
`try/except` (failure only logged) and returns `bad_request(error)`. -/
def upload_document (upload_dir : String) (fs : FS) (db : DB)
    (kb_id user_id doc_name file_type : String) (file_size : Int)
    (object_key : String) (upload_error : Option String)
    (new_doc_id : String) (insert_fault : Bool) (delB : DeleteBehavior) :
    DocResp × FS × DB :=
  match upload_error with
  | some e => (.server_error ("文件上传失败: " ++ e), fs, db)
  | none =>
    match DocumentService.create db kb_id user_id doc_name object_key
        file_type file_size new_doc_id insert_fault with
    | (.error e, db1) =>
      (.bad_request e,
        rollback_delete delB upload_dir
          (fsWrite fs (LocalStorageProvider.get_full_path upload_dir object_key))
          object_key,
        db1)
    | (.ok doc, db1) =>
      (.ok doc,
        fsWrite fs (LocalStorageProvider.get_full_path upload_dir object_key),
        db1)

/-- Claim C1: when the storage upload succeeds and the metadata insert
fails with error `e`, the route answers `bad_request e` whatever the
rollback delete does (its failure is never propagated), and when the
rollback delete succeeds (`DeleteBehavior.real`) the uploaded key no
longer exists. -/
theorem upload_document_rollback_on_create_failure
    (upload_dir : String) (fs : FS) (db : DB)
    (kb_id user_id doc_name file_type : String) (file_size : Int)
    (object_key new_doc_id : String) (insert_fault : Bool) (e : String)
    (hcreate : (DocumentService.create db kb_id user_id doc_name object_key
        file_type file_size new_doc_id insert_fault).1 = .error e) :
    (∀ delB, (upload_document upload_dir fs db kb_id user_id doc_name
        file_type file_size object_key none new_doc_id insert_fault delB).1 =
      .bad_request e) ∧
    LocalStorageProvider.existsFile upload_dir
      (upload_document upload_dir fs db kb_id user_id doc_name file_type
        file_size object_key none new_doc_id insert_fault .real).2.1
      object_key = false := by
  have hp : DocumentService.create db kb_id user_id doc_name object_key
      file_type file_size new_doc_id insert_fault =
      (.error e, (DocumentService.create db kb_id user_id doc_name object_key
        file_type file_size new_doc_id insert_fault).2) := by
    rw [← hcreate]
  constructor
  · intro delB
    unfold upload_document
    rw [hp]
  · unfold upload_document
    rw [hp]
    by_cases hk : object_key = ""
    · simp [rollback_delete, LocalStorageProvider.existsFile, hk,
        LocalStorageProvider.delete]
    · have hmem : (fsWrite fs (LocalStorageProvider.get_full_path upload_dir
          object_key)) (LocalStorageProvider.get_full_path upload_dir
          object_key) = true := by
        simp [fsWrite]
      simp [rollback_delete, LocalStorageProvider.delete, hk, osPathExists,
        hmem, osRemove, LocalStorageProvider.existsFile, fsErase]

/-- Claim C1 witness: over an empty database the insert fails with the
ownership error, the route returns it as `bad_request`, and the blob is
gone under the real rollback delete. -/
theorem upload_document_rollback_witness :
    (DocumentService.create ⟨[], []⟩ "a1b2" "u1" "spec" "documents/x.pdf"
        "pdf" 10 "d1" false).1 = .error "知识库不存在或无权访问" ∧
    (upload_document "uploads" fsEmpty ⟨[], []⟩ "a1b2" "u1" "spec" "pdf" 10
        "documents/x.pdf" none "d1" false .real).1 =
      .bad_request "知识库不存在或无权访问" ∧
    (upload_document "uploads" fsEmpty ⟨[], []⟩ "a1b2" "u1" "spec" "pdf" 10
        "documents/x.pdf" none "d1" false (.fails "disk error")).1 =
      .bad_request "知识库不存在或无权访问" ∧
    LocalStorageProvider.existsFile "uploads"
      (upload_document "uploads" fsEmpty ⟨[], []⟩ "a1b2" "u1" "spec" "pdf" 10
        "documents/x.pdf" none "d1" false .real).2.1 "documents/x.pdf"
      = false := by
  have hc : (DocumentService.create ⟨[], []⟩ "a1b2" "u1" "spec"
      "documents/x.pdf" "pdf" 10 "d1" false).1 =
      .error "知识库不存在或无权访问" := rfl
  have h := upload_document_rollback_on_create_failure "uploads" fsEmpty
    ⟨[], []⟩ "a1b2" "u1" "spec" "pdf" 10 "documents/x.pdf" "d1" false
    "知识库不存在或无权访问" hc
  exact ⟨hc, h.1 .real, h.1 (.fails "disk error"), h.2⟩

/-- Claim C9: a delete targeting a document whose status is `processing`
fails with an error and leaves the database and the stored blob
unchanged; a document in any other status (`pending`, `completed`,
`failed`) is deleted: the call succeeds and its row is gone. -/
theorem document_delete_processing_guard
    (db : DB) (fs : FS) (upload_dir kb_id doc_id user_id : String)
    (doc : DocRec)
    (hkb : (db.kbs.find? (fun kb => kb.id == kb_id &&
        kb.user_id == user_id)).isSome = true)
    (hdoc : db.docs.find? (fun d => d.id == doc_id && d.kb_id == kb_id) =
      some doc) :
    (doc.status = "processing" →
      DocumentService.delete db fs upload_dir kb_id doc_id user_id =
        ((false, some "文档正在处理中，无法删除"), db, fs)) ∧
    (doc.status = "pending" ∨ doc.status = "completed" ∨
        doc.status = "failed" →
      (DocumentService.delete db fs upload_dir kb_id doc_id user_id).1 =
        (true, none) ∧
      ∀ d ∈ (DocumentService.delete db fs upload_dir kb_id doc_id
        user_id).2.1.docs, d.id ≠ doc.id) := by
  obtain ⟨kb, hkbeq⟩ := Option.isSome_iff_exists.mp hkb
  constructor
  · intro hstatus
    unfold DocumentService.delete
    rw [hkbeq, hdoc]
    have hyes : (doc.status == DocumentStatus.PROCESSING) = true := by
      rw [hstatus]; rfl
    simp [hyes]
  · intro hstatus
    have hne : (doc.status == DocumentStatus.PROCESSING) = false := by
      rcases hstatus with h | h | h <;> rw [h] <;> rfl
    unfold DocumentService.delete
    rw [hkbeq, hdoc]
    refine ⟨by simp [hne], ?_⟩
    intro d hd
    simp [hne, List.mem_filter] at hd
    exact hd.2

/-- Claim C9 witness: a concrete database holding one `processing` and
one `completed` document; deleting the former fails and changes
nothing, deleting the latter succeeds. -/
theorem document_delete_processing_guard_witness :
    DocumentService.delete
      ⟨[⟨"a1", "u1", "KB", none, none, 512, 50, 0⟩],
        [⟨"d1", "a1", "spec", "documents/x.pdf", "pdf", 10, "processing"⟩,
         ⟨"d2", "a1", "notes", "documents/y.pdf", "pdf", 20, "completed"⟩]⟩
      fsEmpty "uploads" "a1" "d1" "u1" =
      ((false, some "文档正在处理中，无法删除"),
        ⟨[⟨"a1", "u1", "KB", none, none, 512, 50, 0⟩],
          [⟨"d1", "a1", "spec", "documents/x.pdf", "pdf", 10, "processing"⟩,
           ⟨"d2", "a1", "notes", "documents/y.pdf", "pdf", 20, "completed"⟩]⟩,
        fsEmpty) ∧
    (DocumentService.delete
      ⟨[⟨"a1", "u1", "KB", none, none, 512, 50, 0⟩],
        [⟨"d1", "a1", "spec", "documents/x.pdf", "pdf", 10, "processing"⟩,
         ⟨"d2", "a1", "notes", "documents/y.pdf", "pdf", 20, "completed"⟩]⟩
      fsEmpty "uploads" "a1" "d2" "u1").1 = (true, none) := by
  constructor
  · exact (document_delete_processing_guard
      ⟨[⟨"a1", "u1", "KB", none, none, 512, 50, 0⟩],
        [⟨"d1", "a1", "spec", "documents/x.pdf", "pdf", 10, "processing"⟩,
         ⟨"d2", "a1", "notes", "documents/y.pdf", "pdf", 20, "completed"⟩]⟩
      fsEmpty "uploads" "a1" "d1" "u1"
      ⟨"d1", "a1", "spec", "documents/x.pdf", "pdf", 10, "processing"⟩
      (by decide) (by decide)).1 rfl
  · exact ((document_delete_processing_guard
      ⟨[⟨"a1", "u1", "KB", none, none, 512, 50, 0⟩],
        [⟨"d1", "a1", "spec", "documents/x.pdf", "pdf", 10, "processing"⟩,
         ⟨"d2", "a1", "notes", "documents/y.pdf", "pdf", 20, "completed"⟩]⟩
      fsEmpty "uploads" "a1" "d2" "u1"
      ⟨"d2", "a1", "notes", "documents/y.pdf", "pdf", 20, "completed"⟩
      (by decide) (by decide)).2 (Or.inr (Or.inl rfl))).1

/-- `session.query(Knowledgebase).filter(id == kb_id)` of
`KnowledgebaseService.get_by_id`. -/
def kbQueryById (kbs : List KBRec) (kb_id : String) : List KBRec :=
  kbs.filter (fun kb => kb.id == kb_id)

/-- `.first()` mapped through the service's not-found error. -/
def firstOrNotFound (l : List KBRec) (msg : String) : Except String KBRec :=
  match l.head? with
  | none => .error msg
  | some kb => .ok kb

/-- `KnowledgebaseService.get_by_id`
(`app/services/knowledgebase_service.py`): filter by id, and by owner
only when `user_id` is truthy (Python `if user_id:` — `None` and the
empty string skip the ownership filter). -/
def KnowledgebaseService.get_by_id (kbs : List KBRec) (kb_id : String)
    (user_id : Option String) : Except String KBRec :=
  match user_id with
  | some uid =>
    if uid ≠ "" then
      firstOrNotFound ((kbQueryById kbs kb_id).filter
        (fun kb => kb.user_id == uid)) "知识库不存在或无权访问"
    else firstOrNotFound (kbQueryById kbs kb_id) "知识库不存在或无权访问"
  | none => firstOrNotFound (kbQueryById kbs kb_id) "知识库不存在或无权访问"

/-- `KnowledgebaseService.get_list`: only the requesting user's rows,
ordered by `created_at` descending, then paginated
(`offset = (page-1)*page_size`, `limit = page_size`). -/
def KnowledgebaseService.get_list (kbs : List KBRec) (user_id : String)
    (page page_size : Nat) : List KBRec :=
  ((((kbs.filter (fun kb => kb.user_id == user_id)).mergeSort
      (fun a b => decide (b.created_at ≤ a.created_at))).drop
    ((page - 1) * page_size)).take page_size)

/-- `KnowledgebaseService.delete`: ownership-scoped lookup; a miss is
the not-found error, a hit deletes the row (by primary key) and then
best-effort-deletes the cover image (Python truthiness: `None` and `""`
skip the storage call). -/
def KnowledgebaseService.delete (kbs : List KBRec) (fs : FS)
    (upload_dir kb_id user_id : String) :
    (Bool × Option String) × List KBRec × FS :=
  match (kbs.filter (fun kb => kb.id == kb_id && kb.user_id == user_id)).head? with
  | none => ((false, some "知识库不存在或无权操作"), kbs, fs)
  | some kb =>
    ((true, none),
      kbs.filter (fun k => !(k.id == kb.id)),
      match kb.cover_image with
      | some img =>
        if img ≠ "" then (LocalStorageProvider.delete upload_dir fs img).1
        else fs
      | none => fs)

/-- The error classifier of the `delete_knowledgebase` route
(`app/routes/knowledgebase.py`): errors mentioning `不存在` or `无权`
are answered 404 not-found, anything else 500. -/
def classify_kb_delete_error (e : String) : Bool :=
  strIn "不存在" e || strIn "无权" e

/-- Claim C3: a knowledgebase owned by user A is invisible to user B:
`get_by_id` with B's id errors exactly as for a missing row, `get_list`
for B never contains it, deleting it as B returns exactly the result a
nonexistent id produces (same not-found-class error, never a distinct
"forbidden"), and the route maps that error to 404 not-found. -/
theorem knowledgebase_cross_user_isolation
    (kbs : List KBRec) (fs : FS) (upload_dir : String) (kb : KBRec)
    (userA userB : String)
    (hmem : kb ∈ kbs) (hA : kb.user_id = userA) (hAB : userA ≠ userB)
    (hB : userB ≠ "")
    (huniq : ∀ k ∈ kbs, k.id = kb.id → k.user_id = userA) :
    KnowledgebaseService.get_by_id kbs kb.id (some userB) =
      .error "知识库不存在或无权访问" ∧
    (∀ page page_size,
      kb ∉ KnowledgebaseService.get_list kbs userB page page_size) ∧
    KnowledgebaseService.delete kbs fs upload_dir kb.id userB =
      ((false, some "知识库不存在或无权操作"), kbs, fs) ∧
    (∀ fresh_id, (∀ k ∈ kbs, k.id ≠ fresh_id) →
      (KnowledgebaseService.delete kbs fs upload_dir fresh_id userB).1 =
        (KnowledgebaseService.delete kbs fs upload_dir kb.id userB).1) ∧
    classify_kb_delete_error "知识库不存在或无权操作" = true := by
  have hdel : (kbs.filter (fun k => k.id == kb.id && k.user_id == userB)) = [] := by
    rw [List.filter_eq_nil_iff]
    intro k hk
    simp only [Bool.and_eq_true, beq_iff_eq, not_and]
    intro hid huser
    exact hAB ((huniq k hk hid).symm.trans huser)
  refine ⟨?_, ?_, ?_, ?_, by decide⟩
  · simp only [KnowledgebaseService.get_by_id]
    rw [if_pos hB]
    have hfil : ((kbQueryById kbs kb.id).filter
        (fun k => k.user_id == userB)) = [] := by
      rw [List.filter_eq_nil_iff]
      intro k hk
      simp only [kbQueryById, List.mem_filter, beq_iff_eq] at hk
      simp only [beq_iff_eq]
      intro huser
      exact hAB ((huniq k hk.1 hk.2).symm.trans huser)
    rw [hfil]
    rfl
  · intro page page_size hmem2
    have h1 : kb ∈ kbs.filter (fun k => k.user_id == userB) :=
      List.mem_mergeSort.mp (List.mem_of_mem_drop
        (List.mem_of_mem_take hmem2))
    have h2 := (List.mem_filter.mp h1).2
    simp only [beq_iff_eq] at h2
    exact hAB (hA.symm.trans h2)
  · unfold KnowledgebaseService.delete
    rw [hdel]
    rfl
  · intro fresh_id hfresh
    have hdel2 : (kbs.filter (fun k => k.id == fresh_id && k.user_id == userB))
        = [] := by
      rw [List.filter_eq_nil_iff]
      intro k hk
      simp only [Bool.and_eq_true, beq_iff_eq, not_and]
      intro hid _
      exact absurd hid (hfresh k hk)
    unfold KnowledgebaseService.delete
    rw [hdel, hdel2]


/-- Claim C3 witness: Alice's knowledgebase `a1` is not visible to Bob:
lookup errors, the listing omits it, and deleting it as Bob equals
deleting a nonexistent id. -/
theorem knowledgebase_cross_user_isolation_witness :
    KnowledgebaseService.get_by_id
      [⟨"a1", "alice", "KB", none, none, 512, 50, 7⟩] "a1" (some "bob") =
      .error "知识库不存在或无权访问" ∧
    (⟨"a1", "alice", "KB", none, none, 512, 50, 7⟩ : KBRec) ∉
      KnowledgebaseService.get_list
        [⟨"a1", "alice", "KB", none, none, 512, 50, 7⟩] "bob" 1 10 ∧
    KnowledgebaseService.delete
      [⟨"a1", "alice", "KB", none, none, 512, 50, 7⟩] fsEmpty "uploads"
      "a1" "bob" =
      ((false, some "知识库不存在或无权操作"),
        [⟨"a1", "alice", "KB", none, none, 512, 50, 7⟩], fsEmpty) ∧
    (KnowledgebaseService.delete
      [⟨"a1", "alice", "KB", none, none, 512, 50, 7⟩] fsEmpty "uploads"
      "zzzz" "bob").1 =
      (KnowledgebaseService.delete
        [⟨"a1", "alice", "KB", none, none, 512, 50, 7⟩] fsEmpty "uploads"
        "a1" "bob").1 := by
  have h := knowledgebase_cross_user_isolation
    [⟨"a1", "alice", "KB", none, none, 512, 50, 7⟩] fsEmpty "uploads"
    ⟨"a1", "alice", "KB", none, none, 512, 50, 7⟩ "alice" "bob"
    (by decide) rfl (by decide) (by decide)
    (by intro k hk _; simp at hk; rw [hk])
  exact ⟨h.1, h.2.1 1 10, h.2.2.1, h.2.2.2.1 "zzzz" (by decide)⟩

/-- The JSON body of the create-knowledgebase request
(`app/routes/knowledgebase.py`); absent JSON keys are `none`. -/
structure CreateBody where
  name : Option String
  description : Option String
  chunk_size : Option Int
  chunk_overlap : Option Int
  cover_image : Option String
deriving DecidableEq

/-- Responses of the knowledgebase routes. -/
inductive KbResp where
  | ok (kb : KBRec)
  | bad_request (msg : String)
deriving DecidableEq

/-- `KnowledgebaseService.create`: the row is inserted; a violation of
the global unique-name constraint surfaces as the `IntegrityError`
branch mapped to `知识库名称已存在` (modelled as a pre-insert scan of the
store).  `new_id`/`created_at` stand for the generated primary key and
timestamp. -/
def KnowledgebaseService.create (kbs : List KBRec) (user_id name : String)
    (chunk_size chunk_overlap : Int) (description cover_image : Option String)
    (new_id : String) (created_at : Nat) : Except String KBRec × List KBRec :=
  if kbs.any (fun kb => kb.name == name) then (.error "知识库名称已存在", kbs)
  else
    (.ok { id := new_id, user_id := user_id, name := name,
           description := description, cover_image := cover_image,
           chunk_size := chunk_size, chunk_overlap := chunk_overlap,
           created_at := created_at },
      kbs ++ [{ id := new_id, user_id := user_id, name := name,
                description := description, cover_image := cover_image,
                chunk_size := chunk_size, chunk_overlap := chunk_overlap,
                created_at := created_at }])

/-- `create_knowledgebase` (`app/routes/knowledgebase.py`): the full
validation chain before the service call, in source order.  The third
component records whether the persistence layer
(`KnowledgebaseService.create`) was reached. -/
def create_knowledgebase (kbs : List KBRec) (body : Option CreateBody)
    (user_id new_id : String) (created_at : Nat) :
    KbResp × List KBRec × Bool :=
  match body with
  | none => (.bad_request "请求数据不能为空", kbs, false)
  | some data =>
    if pyStrip (data.name.getD "") = "" then
      (.bad_request "知识库名称不能为空", kbs, false)
    else if 128 < (pyStrip (data.name.getD "")).length then
      (.bad_request "知识库名称不能超过 128 个字符", kbs, false)
    else match data.chunk_size with
    | none => (.bad_request "分块大小不能为空", kbs, false)
    | some cs =>
      if cs < 100 ∨ 2000 < cs then
        (.bad_request "分块大小应为 100-2000 之间的整数", kbs, false)
      else match data.chunk_overlap with
      | none => (.bad_request "分块重叠大小不能为空", kbs, false)
      | some co =>
        if co < 0 ∨ 200 < co then
          (.bad_request "分块重叠大小应为 0-200 之间的整数", kbs, false)
        else if cs ≤ co then
          (.bad_request "分块重叠大小不能大于等于分块大小", kbs, false)
        else
          match KnowledgebaseService.create kbs user_id
              (pyStrip (data.name.getD "")) cs co
              (if pyStrip (data.description.getD "") = "" then none
               else some (pyStrip (data.description.getD "")))
              data.cover_image new_id created_at with
          | (.error e, kbs1) => (.bad_request e, kbs1, true)
          | (.ok kb, kbs1) => (.ok kb, kbs1, true)

/-- The `update_data` dict of `KnowledgebaseService.update`: `some`
marks a key present in the request (whose value may itself be null for
`description`/`cover_image`). -/
structure UpdateData where
  name : Option String
  description : Option (Option String)
  chunk_size : Option Int
  chunk_overlap : Option Int
  cover_image : Option (Option String)
deriving DecidableEq

/-- `if not update_data:` — no allowed field present. -/
def UpdateData.isEmpty (u : UpdateData) : Bool :=
  u.name == none && u.description == none && u.chunk_size == none &&
    u.chunk_overlap == none && u.cover_image == none

/-- The `setattr` loop of `KnowledgebaseService.update`: present fields
overwrite the row. -/
def applyUpdate (kb : KBRec) (u : UpdateData) : KBRec :=
  { kb with
    name := u.name.getD kb.name,
    description := (match u.description with
      | some d => d
      | none => kb.description),
    chunk_size := u.chunk_size.getD kb.chunk_size,
    chunk_overlap := u.chunk_overlap.getD kb.chunk_overlap,
    cover_image := (match u.cover_image with
      | some c => c
      | none => kb.cover_image) }

/-- The deferred old-cover deletion of `KnowledgebaseService.update`:
after a successful commit, if the request changed a truthy old cover,
the old blob is best-effort deleted. -/
def updateCoverFs (upload_dir : String) (fs : FS) (kb : KBRec)
    (u : UpdateData) : FS :=
  match u.cover_image, kb.cover_image with
  | some newImg, some oldImg =>
    if oldImg ≠ "" ∧ newImg ≠ some oldImg then
      (LocalStorageProvider.delete upload_dir fs oldImg).1
    else fs
  | _, _ => fs

/-- `KnowledgebaseService.update`
(`app/services/knowledgebase_service.py`): empty update rejected;
ownership-scoped lookup; the `chunk_overlap < chunk_size` invariant is
checked against the stored values for fields not supplied; the
unique-name `IntegrityError` is modelled as a scan; then the row is
updated in place and the old cover deleted after commit. -/
def KnowledgebaseService.update (kbs : List KBRec) (fs : FS)
    (upload_dir kb_id user_id : String) (u : UpdateData) :
    Except String KBRec × List KBRec × FS :=
  if u.isEmpty then (.error "没有有效的更新字段", kbs, fs)
  else match (kbs.filter (fun kb => kb.id == kb_id &&
      kb.user_id == user_id)).head? with
  | none => (.error "知识库不存在或无权操作", kbs, fs)
  | some kb =>
    if u.chunk_size.getD kb.chunk_size ≤ u.chunk_overlap.getD kb.chunk_overlap
    then (.error "分块重叠大小不能大于等于分块大小", kbs, fs)
    else if kbs.any (fun k => !(k.id == kb.id) &&
        k.name == (u.name.getD kb.name)) then
      (.error "知识库名称已存在", kbs, fs)
    else
      (.ok (applyUpdate kb u),
        kbs.map (fun k => if k.id == kb.id then applyUpdate kb u else k),
        updateCoverFs upload_dir fs kb u)

/-- Claim C8: (a) a create request with `chunk_size ∈ [100,2000]`,
`chunk_overlap ∈ [0,200]`, `chunk_overlap < chunk_size`, a valid name
and no name conflict succeeds; (b) any request supplying
`chunk_overlap ≥ chunk_size` is rejected with a validation error before
the persistence layer is reached; (c) after every successful update the
stored row satisfies `chunk_overlap < chunk_size` (the check uses the
stored values when only one field was supplied). -/
theorem chunk_param_validation :
    (∀ (kbs : List KBRec) (data : CreateBody) (user_id new_id : String)
        (created_at : Nat) (cs co : Int),
      data.chunk_size = some cs → data.chunk_overlap = some co →
      100 ≤ cs → cs ≤ 2000 → 0 ≤ co → co ≤ 200 → co < cs →
      pyStrip (data.name.getD "") ≠ "" →
      (pyStrip (data.name.getD "")).length ≤ 128 →
      (∀ kb ∈ kbs, kb.name ≠ pyStrip (data.name.getD "")) →
      ∃ kb, create_knowledgebase kbs (some data) user_id new_id created_at =
          (.ok kb, kbs ++ [kb], true) ∧
        kb.chunk_size = cs ∧ kb.chunk_overlap = co) ∧
    (∀ (kbs : List KBRec) (data : CreateBody) (user_id new_id : String)
        (created_at : Nat) (cs co : Int),
      data.chunk_size = some cs → data.chunk_overlap = some co → cs ≤ co →
      ∃ m, create_knowledgebase kbs (some data) user_id new_id created_at =
        (.bad_request m, kbs, false)) ∧
    (∀ (kbs : List KBRec) (fs fs1 : FS) (upload_dir kb_id user_id : String)
        (u : UpdateData) (kb1 : KBRec) (kbs1 : List KBRec),
      KnowledgebaseService.update kbs fs upload_dir kb_id user_id u =
        (.ok kb1, kbs1, fs1) →
      kb1.chunk_overlap < kb1.chunk_size ∧ kb1 ∈ kbs1) := by
  refine ⟨?_, ?_, ?_⟩
  · intro kbs data user_id new_id created_at cs co hcs hco hcs1 hcs2 hco1 hco2
      hlt hname hlen hconf
    have hany : (kbs.any (fun kb => kb.name == pyStrip (data.name.getD "")))
        = false := by
      rw [List.any_eq_false]
      intro kb hkb
      simp only [beq_iff_eq]
      exact hconf kb hkb
    simp only [create_knowledgebase, hcs, hco]
    rw [if_neg hname, if_neg (by omega), if_neg (by omega),
      if_neg (by omega), if_neg (by omega)]
    unfold KnowledgebaseService.create
    rw [if_neg (by simp [hany])]
    exact ⟨⟨new_id, user_id, pyStrip (data.name.getD ""),
      (if pyStrip (data.description.getD "") = "" then none
       else some (pyStrip (data.description.getD ""))),
      data.cover_image, cs, co, created_at⟩, rfl, rfl, rfl⟩
  · intro kbs data user_id new_id created_at cs co hcs hco hle
    simp only [create_knowledgebase, hcs, hco]
    by_cases h1 : pyStrip (data.name.getD "") = ""
    · exact ⟨_, by rw [if_pos h1]⟩
    · rw [if_neg h1]
      by_cases h2 : 128 < (pyStrip (data.name.getD "")).length
      · exact ⟨_, by rw [if_pos h2]⟩
      · rw [if_neg h2]
        by_cases h3 : cs < 100 ∨ 2000 < cs
        · exact ⟨_, by rw [if_pos h3]⟩
        · rw [if_neg h3]
          by_cases h4 : co < 0 ∨ 200 < co
          · exact ⟨_, by rw [if_pos h4]⟩
          · rw [if_neg h4]
            exact ⟨_, by rw [if_pos hle]⟩
  · intro kbs fs fs1 upload_dir kb_id user_id u kb1 kbs1 hupd
    unfold KnowledgebaseService.update at hupd
    split at hupd
    · exact absurd (congrArg Prod.fst hupd) (by simp)
    · split at hupd
      · exact absurd (congrArg Prod.fst hupd) (by simp)
      · rename_i kb hh
        split at hupd
        · exact absurd (congrArg Prod.fst hupd) (by simp)
        · rename_i h2
          split at hupd
          · exact absurd (congrArg Prod.fst hupd) (by simp)
          · have hkb1 : applyUpdate kb u = kb1 :=
              Except.ok.inj (congrArg Prod.fst hupd)
            have hkbs1 : kbs.map (fun k => if k.id == kb.id then
                applyUpdate kb u else k) = kbs1 :=
              congrArg (fun p => p.2.1) hupd
            constructor
            · rw [← hkb1]
              simpa [applyUpdate] using lt_of_not_le h2
            · rw [← hkbs1, ← hkb1]
              have hkbmem : kb ∈ kbs := by
                obtain ⟨ys, hys⟩ := List.head?_eq_some_iff.mp hh
                have hmf : kb ∈ kbs.filter (fun kb => kb.id == kb_id &&
                    kb.user_id == user_id) := by
                  rw [hys]; exact List.mem_cons_self _ _
                exact (List.mem_filter.mp hmf).1
              refine List.mem_map.mpr ⟨kb, hkbmem, ?_⟩
              rw [if_pos (by simp)]

/-- Claim C8 witness: a valid create succeeds over the empty store; a
request with overlap 150 ≥ size 100 is rejected without reaching the
service; a concrete update changing only `chunk_overlap` keeps the
invariant. -/
theorem chunk_param_validation_witness :
    (∃ kb, create_knowledgebase []
        (some ⟨some "My KB", none, some 512, some 50, none⟩)
        "alice" "k1" 7 = (.ok kb, [] ++ [kb], true) ∧
      kb.chunk_size = 512 ∧ kb.chunk_overlap = 50) ∧
    (∃ m, create_knowledgebase []
        (some ⟨some "My KB", none, some 100, some 150, none⟩)
        "alice" "k1" 7 = (.bad_request m, [], false)) ∧
    ((⟨"k1", "alice", "KB", none, none, 512, 60, 7⟩ : KBRec).chunk_overlap <
        (⟨"k1", "alice", "KB", none, none, 512, 60, 7⟩ : KBRec).chunk_size ∧
      (⟨"k1", "alice", "KB", none, none, 512, 60, 7⟩ : KBRec) ∈
        [(⟨"k1", "alice", "KB", none, none, 512, 60, 7⟩ : KBRec)]) := by
  refine ⟨?_, ?_, ?_⟩
  · exact chunk_param_validation.1 [] ⟨some "My KB", none, some 512, some 50,
      none⟩ "alice" "k1" 7 512 50 rfl rfl (by decide) (by decide) (by decide)
      (by decide) (by decide) (by decide) (by decide) (by intro kb h; cases h)
  · exact chunk_param_validation.2.1 [] ⟨some "My KB", none, some 100,
      some 150, none⟩ "alice" "k1" 7 100 150 rfl rfl (by decide)
  · exact chunk_param_validation.2.2
      [⟨"k1", "alice", "KB", none, none, 512, 50, 7⟩] fsEmpty fsEmpty
      "uploads" "k1" "alice" ⟨none, none, none, some 60, none⟩
      ⟨"k1", "alice", "KB", none, none, 512, 60, 7⟩
      [⟨"k1", "alice", "KB", none, none, 512, 60, 7⟩] rfl
